import Mathlib

/-!
Verification of the `joinery` separator catalog (`src/separators.rs`).

The Rust module defines eight zero-size separator types, each implementing
`Display`: `NoSeparator` returns `Ok(())` without touching the formatter,
and each `const_separator!`-generated type (`Space`, `Comma`, `CommaSpace`,
`Dot`, `Slash`, `Underscore`, `Dash`) delegates `fmt` to the `Display`
implementation of its underlying string literal, i.e. to `Formatter::pad`.

We embed the formatter as a write log together with a per-write failure
policy of the sink, and model `Formatter::pad` (precision truncation,
minimum width, fill character, alignment) following `core::fmt`.  The join
collaborator is not part of the sources, so it is modelled from the spec.
-/

namespace Joinery

/-- Alignment requested of a Rust `core::fmt::Formatter` (`<`, `>`, `^`). -/
inductive Alignment where
  | left
  | right
  | center
deriving DecidableEq

/-- The formatting options a `core::fmt::Formatter` carries that are relevant
to `Formatter::pad`: fill character, alignment, minimum width and precision
(maximum width).  `none` means the option was not given. -/
structure FormatSpec where
  fill : Char
  align : Option Alignment
  width : Option Nat
  precision : Option Nat
deriving DecidableEq

/-- The default formatter state: fill is a space, no alignment, no width, no
precision.  This is the state `to_string` and the join tests use. -/
def defaultSpec : FormatSpec := ⟨' ', none, none, none⟩

/-- Truncation of a string to at most `max` characters, as `Formatter::pad`
does when a precision is given (`s.char_indices().nth(max)`). -/
def truncByPrecision (precision : Option Nat) (s : String) : String :=
  match precision with
  | none => s
  | some max => String.mk (s.data.take max)

/-- Number of fill characters written before and after the string, as
computed by `Formatter::padding` from the requested alignment (`pad` uses
`Left` as the default alignment for strings). -/
def padCounts (align : Option Alignment) (padding : Nat) : Nat × Nat :=
  match align.getD Alignment.left with
  | Alignment.left => (0, padding)
  | Alignment.right => (padding, 0)
  | Alignment.center => (padding / 2, (padding + 1) / 2)

/-- The sequence of `write_str`-level writes `Formatter::pad` performs for a
string `s`: the fast path writes `s` as a single write when neither width
nor precision is set; otherwise `s` is truncated by the precision and, when
the character count is below the minimum width, surrounded by single-fill
writes as `Formatter::padding` produces them. -/
def padWrites (spec : FormatSpec) (s : String) : List String :=
  if spec.width.isNone && spec.precision.isNone then
    [s]
  else
    let t := truncByPrecision spec.precision s
    match spec.width with
    | none => [t]
    | some width =>
      if width ≤ t.data.length then
        [t]
      else
        let padding := width - t.data.length
        let counts := padCounts spec.align padding
        List.replicate counts.1 (String.mk [spec.fill]) ++ [t] ++
          List.replicate counts.2 (String.mk [spec.fill])

/-- The writes performed by `impl Display for str`, which is
`f.pad(self)`. -/
def strDisplayWrites (s : String) (spec : FormatSpec) : List String :=
  padWrites spec s

/-- The eight separator types of the catalog: `NoSeparator` plus the seven
`const_separator!`-generated unit structs.  Each Rust type is a distinct
zero-size unit struct; the inductive tags select among them. -/
inductive Separator where
  | NoSeparator
  | Space
  | Comma
  | CommaSpace
  | Dot
  | Slash
  | Underscore
  | Dash
deriving DecidableEq

/-- The fixed literal text of each catalog variant, per the table in the
sources (`NoSeparator` contributes the empty string). -/
def sepLiteral : Separator → String
  | Separator.NoSeparator => ""
  | Separator.Space => " "
  | Separator.Comma => ","
  | Separator.CommaSpace => ", "
  | Separator.Dot => "."
  | Separator.Slash => "/"
  | Separator.Underscore => "_"
  | Separator.Dash => "-"

/-- The writes each separator's `Display::fmt` performs on the formatter.
`NoSeparator::fmt` returns `Ok(())` without touching the formatter, hence
performs no write for any formatter state; each generated variant executes
`$sep.fmt(f)`, i.e. the `Display` rendering of its string literal. -/
def sepWrites (v : Separator) (spec : FormatSpec) : List String :=
  match v with
  | Separator.NoSeparator => []
  | Separator.Space => strDisplayWrites " " spec
  | Separator.Comma => strDisplayWrites "," spec
  | Separator.CommaSpace => strDisplayWrites ", " spec
  | Separator.Dot => strDisplayWrites "." spec
  | Separator.Slash => strDisplayWrites "/" spec
  | Separator.Underscore => strDisplayWrites "_" spec
  | Separator.Dash => strDisplayWrites "-" spec

/-- Execution of a list of writes against a sink.  The sink is a policy
assigning to each write index `none` (success) or `some e` (failure with
error value `e`, as `fmt::Result` propagates it).  The run returns the
writes actually performed and the final result; after the first failing
write no further write is attempted, mirroring the `?` propagation in
`fmt` code. -/
def runWrites {ε : Type} (policy : Nat → Option ε) : List String → List String × Option ε
  | [] => ([], none)
  | w :: ws =>
    match policy 0 with
    | some e => ([], some e)
    | none =>
      let r := runWrites (fun i => policy (i + 1)) ws
      (w :: r.1, r.2)

/-- Concatenation of a write log into the text the sink received. -/
def writesOut (ws : List String) : String :=
  ws.foldr (fun a b => a ++ b) ""

/-- Modelled from the spec: the join collaborator is not among the sources
(only the separator module is).  Per the spec it "iterates a sequence of
renderable elements and, between consecutive elements, invokes the
separator's render operation against the same output destination used for
the elements themselves".  Elements are given by their text representation,
each written as one write with the default formatter state; between
consecutive elements the separator's writes are interposed. -/
def joinWrites (v : Separator) (items : List String) : List String :=
  match items with
  | [] => []
  | x :: xs => x :: xs.foldr (fun y acc => sepWrites v defaultSpec ++ (y :: acc)) []

/-- The string a join produces on a sink that accepts every write. -/
def joinString (v : Separator) (items : List String) : String :=
  writesOut (joinWrites v items)

/-- The spec's shape of a joined string:
`item_1 ++ T ++ item_2 ++ T ++ ... ++ T ++ item_N`. -/
def specJoin (T : String) : List String → String
  | [] => ""
  | [x] => x
  | x :: y :: ys => x ++ T ++ specJoin T (y :: ys)

/-- A sink that accepts every write, with the unit error type of
`fmt::Error`. -/
def alwaysOk : Nat → Option Unit := fun _ => none

theorem writesOut_cons (a : String) (l : List String) :
    writesOut (a :: l) = a ++ writesOut l := rfl

theorem writesOut_append (l1 l2 : List String) :
    writesOut (l1 ++ l2) = writesOut l1 ++ writesOut l2 := by
  induction l1 with
  | nil => simp [writesOut]
  | cons a l ih =>
      simp only [List.cons_append, writesOut_cons, ih, String.append_assoc]

theorem writesOut_sepWrites (v : Separator) :
    writesOut (sepWrites v defaultSpec) = sepLiteral v := by
  cases v <;> decide

theorem joinWrites_cons_cons (v : Separator) (x y : String) (ys : List String) :
    joinWrites v (x :: y :: ys) =
      x :: (sepWrites v defaultSpec ++ joinWrites v (y :: ys)) := rfl

theorem joinString_cons_cons (v : Separator) (x y : String) (ys : List String) :
    joinString v (x :: y :: ys) = x ++ sepLiteral v ++ joinString v (y :: ys) := by
  show writesOut (joinWrites v (x :: y :: ys)) = _
  rw [joinWrites_cons_cons, writesOut_cons, writesOut_append, writesOut_sepWrites,
    String.append_assoc]
  rfl

theorem runWrites_cons {ε : Type} (policy : Nat → Option ε) (w : String)
    (ws : List String) :
    runWrites policy (w :: ws) =
      match policy 0 with
      | some e => ([], some e)
      | none =>
        (w :: (runWrites (fun i => policy (i + 1)) ws).1,
          (runWrites (fun i => policy (i + 1)) ws).2) := rfl

theorem runWrites_allOk {ε : Type} :
    ∀ (ws : List String) (policy : Nat → Option ε),
      (∀ i, policy i = none) → runWrites policy ws = (ws, none) := by
  intro ws
  induction ws with
  | nil => intro policy _; rfl
  | cons w ws ih =>
      intro policy h
      rw [runWrites_cons, h 0, ih (fun i => policy (i + 1)) (fun i => h (i + 1))]

theorem runWrites_failFast {ε : Type} :
    ∀ (ws : List String) (policy : Nat → Option ε) (j : Nat) (e : ε),
      j < ws.length → policy j = some e → (∀ i, i < j → policy i = none) →
      runWrites policy ws = (ws.take j, some e) := by
  intro ws
  induction ws with
  | nil => intro policy j e hj _ _; exact absurd hj (Nat.not_lt_zero j)
  | cons w ws ih =>
      intro policy j e hj hfail hok
      cases j with
      | zero => rw [runWrites_cons, hfail]; rfl
      | succ k =>
          rw [runWrites_cons, hok 0 (Nat.succ_pos k),
            ih (fun i => policy (i + 1)) k e
              (Nat.lt_of_succ_lt_succ hj) hfail
              (fun i hi => hok (i + 1) (Nat.succ_lt_succ hi))]
          rfl

/-- Claim C1: for every catalog variant, rendering with the default
formatter state into a sink that accepts every write performs exactly the
writes of the fixed literal table and succeeds: `NoSeparator` performs zero
writes (total text written is the empty string), and each other variant
performs the single write of its literal — `" "`, `","`, `", "`, `"."`,
`"/"`, `"_"`, `"-"` — and nothing else. -/
theorem render_writes_exact_literal :
    runWrites alwaysOk (sepWrites Separator.NoSeparator defaultSpec) = ([], none) ∧
    runWrites alwaysOk (sepWrites Separator.Space defaultSpec) = ([" "], none) ∧
    runWrites alwaysOk (sepWrites Separator.Comma defaultSpec) = ([","], none) ∧
    runWrites alwaysOk (sepWrites Separator.CommaSpace defaultSpec) = ([", "], none) ∧
    runWrites alwaysOk (sepWrites Separator.Dot defaultSpec) = (["."], none) ∧
    runWrites alwaysOk (sepWrites Separator.Slash defaultSpec) = (["/"], none) ∧
    runWrites alwaysOk (sepWrites Separator.Underscore defaultSpec) = (["_"], none) ∧
    runWrites alwaysOk (sepWrites Separator.Dash defaultSpec) = (["-"], none) ∧
    writesOut (runWrites alwaysOk (sepWrites Separator.NoSeparator defaultSpec)).1 = "" := by
  decide

/-- Claim C2: for every catalog variant `V` with literal `T` and every
nonempty sequence of items, the joined string is exactly
`item_1 ++ T ++ item_2 ++ T ++ ... ++ T ++ item_N`. -/
theorem join_eq_specJoin (v : Separator) (items : List String)
    (h : items ≠ []) : joinString v items = specJoin (sepLiteral v) items := by
  match items with
  | [] => exact absurd rfl h
  | x :: xs =>
      clear h
      induction xs generalizing x with
      | nil =>
          show writesOut [x] = x
          rw [writesOut_cons]
          exact String.append_empty x
      | cons y ys ih =>
          rw [joinString_cons_cons, ih y]
          rfl

/-- Witness for C2 at a concrete input. -/
theorem join_eq_specJoin_witness :
    joinString Separator.Comma ["1", "2"] =
      specJoin (sepLiteral Separator.Comma) ["1", "2"] :=
  join_eq_specJoin Separator.Comma ["1", "2"] (by decide)

theorem runWrites_single_snd {ε : Type} (policy : Nat → Option ε) (w : String)
    (e : ε) : (runWrites policy [w]).2 = some e ↔ policy 0 = some e := by
  rw [runWrites_cons]
  cases h : policy 0 with
  | none => simp [h, runWrites]
  | some e2 => simp [h]

/-- Claim C3: rendering a separator with the default formatter state fails
exactly when the sink fails the write of the literal (so `NoSeparator`,
which performs no write, never fails), and the sink's error value is
returned to the caller unchanged; the separator introduces no failure mode
of its own. -/
theorem render_fails_iff_sink_fails {ε : Type} (v : Separator)
    (policy : Nat → Option ε) (e : ε) :
    (runWrites policy (sepWrites v defaultSpec)).2 = some e ↔
      (sepWrites v defaultSpec ≠ [] ∧ policy 0 = some e) := by
  cases v with
  | NoSeparator => simp [sepWrites, runWrites]
  | Space =>
      rw [show sepWrites Separator.Space defaultSpec = [" "] from rfl]
      simp [runWrites_single_snd]
  | Comma =>
      rw [show sepWrites Separator.Comma defaultSpec = [","] from rfl]
      simp [runWrites_single_snd]
  | CommaSpace =>
      rw [show sepWrites Separator.CommaSpace defaultSpec = [", "] from rfl]
      simp [runWrites_single_snd]
  | Dot =>
      rw [show sepWrites Separator.Dot defaultSpec = ["."] from rfl]
      simp [runWrites_single_snd]
  | Slash =>
      rw [show sepWrites Separator.Slash defaultSpec = ["/"] from rfl]
      simp [runWrites_single_snd]
  | Underscore =>
      rw [show sepWrites Separator.Underscore defaultSpec = ["_"] from rfl]
      simp [runWrites_single_snd]
  | Dash =>
      rw [show sepWrites Separator.Dash defaultSpec = ["-"] from rfl]
      simp [runWrites_single_snd]

/-- Claim C4: joining the decimal renderings of `[1,2,3,4,5]` with each
named separator produces exactly the stated string. -/
theorem join_concrete_sequence :
    joinString Separator.NoSeparator
      (List.map (fun n : Nat => toString n) [1, 2, 3, 4, 5]) = "12345" ∧
    joinString Separator.Space
      (List.map (fun n : Nat => toString n) [1, 2, 3, 4, 5]) = "1 2 3 4 5" ∧
    joinString Separator.Comma
      (List.map (fun n : Nat => toString n) [1, 2, 3, 4, 5]) = "1,2,3,4,5" ∧
    joinString Separator.CommaSpace
      (List.map (fun n : Nat => toString n) [1, 2, 3, 4, 5]) = "1, 2, 3, 4, 5" ∧
    joinString Separator.Dot
      (List.map (fun n : Nat => toString n) [1, 2, 3, 4, 5]) = "1.2.3.4.5" ∧
    joinString Separator.Underscore
      (List.map (fun n : Nat => toString n) [1, 2, 3, 4, 5]) = "1_2_3_4_5" := by
  decide

/-- Claim C5: joining zero items with any separator produces the empty
string. -/
theorem join_nil_empty (v : Separator) : joinString v [] = "" := rfl

/-- Claim C6: joining a one-element sequence with any separator produces
exactly that item's text, with no separator text in the output. -/
theorem join_singleton (v : Separator) (s : String) :
    joinString v [s] = s :=
  String.append_empty s

/-- Claim C7: if the sink fails on the write at index `j` of a join (all
earlier writes succeeding), the join reports that failure and exactly the
writes before index `j` were performed — no further write is attempted
after the failing one. -/
theorem join_fail_fast {ε : Type} (v : Separator) (items : List String)
    (policy : Nat → Option ε) (j : Nat) (e : ε)
    (hj : j < (joinWrites v items).length)
    (hfail : policy j = some e)
    (hok : ∀ i, i < j → policy i = none) :
    runWrites policy (joinWrites v items) = ((joinWrites v items).take j, some e) :=
  runWrites_failFast (joinWrites v items) policy j e hj hfail hok

/-- Witness for C7: a sink failing on the third write of
`join(Comma, ["1","2","3"])` stops the run after the first two writes. -/
theorem join_fail_fast_witness :
    runWrites (fun i => if i = 2 then some () else none)
        (joinWrites Separator.Comma ["1", "2", "3"]) =
      ((joinWrites Separator.Comma ["1", "2", "3"]).take 2, some ()) :=
  join_fail_fast Separator.Comma ["1", "2", "3"]
    (fun i => if i = 2 then some () else none) 2 ()
    (by decide) (by decide) (by decide)

/-- Claim C8: rendering is deterministic and stateless — the outcome of a
join is a function of the separator variant and the items alone: two
independent runs on any two all-accepting sinks perform the same writes,
produce the same output and both succeed.  The separator values carry no
state at all (they are unit structs), so nothing can be observed or
mutated between the runs. -/
theorem join_deterministic {ε : Type} (v : Separator) (items : List String)
    (p1 p2 : Nat → Option ε)
    (h1 : ∀ i, p1 i = none) (h2 : ∀ i, p2 i = none) :
    runWrites p1 (joinWrites v items) = runWrites p2 (joinWrites v items) ∧
    runWrites p1 (joinWrites v items) = (joinWrites v items, none) := by
  rw [runWrites_allOk _ _ h1, runWrites_allOk _ _ h2]
  exact ⟨rfl, rfl⟩

/-- Witness for C8 at a concrete input. -/
theorem join_deterministic_witness :
    runWrites (fun _ => (none : Option Unit)) (joinWrites Separator.Dot ["a", "b"]) =
      runWrites (fun _ => (none : Option Unit)) (joinWrites Separator.Dot ["a", "b"]) ∧
    runWrites (fun _ => (none : Option Unit)) (joinWrites Separator.Dot ["a", "b"]) =
      (joinWrites Separator.Dot ["a", "b"], none) :=
  join_deterministic Separator.Dot ["a", "b"] (fun _ => none) (fun _ => none)
    (fun _ => rfl) (fun _ => rfl)

/-- Claim C9: each of the seven non-empty variants renders exactly as the
`Display` rendering of its underlying string literal for every formatter
state (fill, alignment, width, precision): the two produce identical write
sequences, hence identical output and identical success or failure on every
sink. -/
theorem variant_fmt_eq_literal_fmt (v : Separator) (spec : FormatSpec)
    (h : v ≠ Separator.NoSeparator) :
    sepWrites v spec = strDisplayWrites (sepLiteral v) spec := by
  cases v with
  | NoSeparator => exact absurd rfl h
  | Space => rfl
  | Comma => rfl
  | CommaSpace => rfl
  | Dot => rfl
  | Slash => rfl
  | Underscore => rfl
  | Dash => rfl

/-- Witness for C9 at a concrete input. -/
theorem variant_fmt_eq_literal_fmt_witness :
    sepWrites Separator.Space defaultSpec =
      strDisplayWrites (sepLiteral Separator.Space) defaultSpec :=
  variant_fmt_eq_literal_fmt Separator.Space defaultSpec (by decide)

/-- Claim C10: rendering `NoSeparator` performs zero writes and succeeds
unconditionally, for every formatter state and every sink, including a sink
that fails every write. -/
theorem noSeparator_never_touches_sink {ε : Type} (spec : FormatSpec)
    (policy : Nat → Option ε) :
    runWrites policy (sepWrites Separator.NoSeparator spec) = ([], none) := rfl

end Joinery
